import Mathlib

/-!
Verification of the RequirementsBot serverless endpoint
(`src/api/generate.js`, plus the two unnamed near-duplicate variants of
the same file).  The repository is a single HTTP handler that builds a
chat prompt from the request body, attaches a JSON-Schema output
constraint, calls an external chat-completion service once, and relays
the result.

The embedding below is a shallow model of that code:
* JSON values are the inductive `JValue`.
* The `schema()` function of each variant is transcribed literally as a
  closed `JValue` (`schema`, `schemaPart000`, `schemaPart001`).
* The handler becomes a pure function `handler` over an explicit request
  record and an oracle for the single outbound `fetch`; JavaScript
  exceptions become `Except String`, and the value of `x || d` on
  string-or-undefined values becomes `jsOr`.  The handler also returns
  the list of outbound calls it performed, so that claims about "the
  outbound call" can be stated directly.
-/

/-- JSON values, used both for the JSON-Schema literals in the source and
for the upstream response body. -/
inductive JValue where
  | str (s : String)
  | num (n : Int)
  | bool (b : Bool)
  | arr (elems : List JValue)
  | obj (fields : List (String × JValue))

/-- Transcription of `schema()` from `src/api/generate.js` (lines 3-99),
key for key in source order. -/
def schema : JValue :=
  .obj [
    ("name", .str "RequirementsBundle"),
    ("strict", .bool true),
    ("schema", .obj [
      ("type", .str "object"),
      ("additionalProperties", .bool false),
      ("properties", .obj [
        ("userStories", .obj [
          ("type", .str "array"),
          ("items", .obj [
            ("type", .str "object"),
            ("required", .arr [.str "id", .str "as_a", .str "i_want", .str "so_that", .str "acceptance_criteria"]),
            ("additionalProperties", .bool true),
            ("properties", .obj [
              ("id", .obj [("type", .str "string")]),
              ("as_a", .obj [("type", .str "string")]),
              ("i_want", .obj [("type", .str "string")]),
              ("so_that", .obj [("type", .str "string")]),
              ("acceptance_criteria", .obj [("type", .str "array"), ("items", .obj [("type", .str "string")])]),
              ("trace", .obj [("type", .str "object")])
            ])
          ])
        ]),
        ("declarativeStories", .obj [
          ("type", .str "array"),
          ("items", .obj [
            ("type", .str "object"),
            ("required", .arr [.str "title", .str "scenarios"]),
            ("properties", .obj [
              ("title", .obj [("type", .str "string")]),
              ("scenarios", .obj [
                ("type", .str "array"),
                ("items", .obj [
                  ("type", .str "object"),
                  ("required", .arr [.str "given", .str "when", .str "then"]),
                  ("properties", .obj [
                    ("given", .obj [("type", .str "string")]),
                    ("when", .obj [("type", .str "string")]),
                    ("then", .obj [("type", .str "string")]),
                    ("examples", .obj [("type", .str "array"), ("items", .obj [("type", .str "object")])])
                  ])
                ])
              ])
            ])
          ])
        ]),
        ("imperativeTests", .obj [
          ("type", .str "array"),
          ("items", .obj [
            ("type", .str "object"),
            ("required", .arr [.str "name", .str "gherkin", .str "tags"]),
            ("properties", .obj [
              ("name", .obj [("type", .str "string")]),
              ("tags", .obj [("type", .str "array"), ("items", .obj [("type", .str "string")])]),
              ("gherkin", .obj [("type", .str "string")]),
              ("selectors", .obj [("type", .str "object")])
            ])
          ])
        ]),
        ("uiDataModel", .obj [
          ("type", .str "object"),
          ("properties", .obj [
            ("entities", .obj [
              ("type", .str "array"),
              ("items", .obj [
                ("type", .str "object"),
                ("required", .arr [.str "name", .str "fields"]),
                ("properties", .obj [
                  ("name", .obj [("type", .str "string")]),
                  ("fields", .obj [
                    ("type", .str "array"),
                    ("items", .obj [
                      ("type", .str "object"),
                      ("required", .arr [.str "name", .str "type"]),
                      ("properties", .obj [
                        ("name", .obj [("type", .str "string")]),
                        ("type", .obj [("type", .str "string")]),
                        ("required", .obj [("type", .str "boolean")]),
                        ("constraints", .obj [("type", .str "object")]),
                        ("enum", .obj [("type", .str "array"), ("items", .obj [("type", .str "string")])])
                      ])
                    ])
                  ]),
                  ("relations", .obj [("type", .str "array"), ("items", .obj [("type", .str "object")])])
                ])
              ])
            ]),
            ("jsonSchemas", .obj [("type", .str "object")]),
            ("sqlDDL", .obj [("type", .str "string")])
          ])
        ]),
        ("validationReport", .obj [
          ("type", .str "object"),
          ("properties", .obj [
            ("coverage", .obj [("type", .str "object")]),
            ("conflicts", .obj [("type", .str "array"), ("items", .obj [("type", .str "string")])]),
            ("ambiguities", .obj [("type", .str "array"), ("items", .obj [("type", .str "string")])]),
            ("missing", .obj [("type", .str "array"), ("items", .obj [("type", .str "string")])]),
            ("notes", .obj [("type", .str "array"), ("items", .obj [("type", .str "string")])])
          ])
        ])
      ]),
      ("required", .arr [.str "userStories", .str "declarativeStories", .str "imperativeTests", .str "uiDataModel", .str "validationReport"])
    ])
  ]

/-- Transcription of `schema()` from `src/unnamed/part_000` (lines 3-121),
the partially strict variant: closed objects everywhere, but `trace`,
`examples`, `selectors`, `constraints`, `enum`, `relations`,
`jsonSchemas` and `sqlDDL` are omitted. -/
def schemaPart000 : JValue :=
  .obj [
    ("name", .str "RequirementsBundle"),
    ("strict", .bool true),
    ("schema", .obj [
      ("type", .str "object"),
      ("additionalProperties", .bool false),
      ("required", .arr [.str "userStories", .str "declarativeStories", .str "imperativeTests", .str "uiDataModel", .str "validationReport"]),
      ("properties", .obj [
        ("userStories", .obj [
          ("type", .str "array"),
          ("items", .obj [
            ("type", .str "object"),
            ("additionalProperties", .bool false),
            ("required", .arr [.str "id", .str "as_a", .str "i_want", .str "so_that", .str "acceptance_criteria"]),
            ("properties", .obj [
              ("id", .obj [("type", .str "string")]),
              ("as_a", .obj [("type", .str "string")]),
              ("i_want", .obj [("type", .str "string")]),
              ("so_that", .obj [("type", .str "string")]),
              ("acceptance_criteria", .obj [("type", .str "array"), ("items", .obj [("type", .str "string")])])
            ])
          ])
        ]),
        ("declarativeStories", .obj [
          ("type", .str "array"),
          ("items", .obj [
            ("type", .str "object"),
            ("additionalProperties", .bool false),
            ("required", .arr [.str "title", .str "scenarios"]),
            ("properties", .obj [
              ("title", .obj [("type", .str "string")]),
              ("scenarios", .obj [
                ("type", .str "array"),
                ("items", .obj [
                  ("type", .str "object"),
                  ("additionalProperties", .bool false),
                  ("required", .arr [.str "given", .str "when", .str "then"]),
                  ("properties", .obj [
                    ("given", .obj [("type", .str "string")]),
                    ("when", .obj [("type", .str "string")]),
                    ("then", .obj [("type", .str "string")])
                  ])
                ])
              ])
            ])
          ])
        ]),
        ("imperativeTests", .obj [
          ("type", .str "array"),
          ("items", .obj [
            ("type", .str "object"),
            ("additionalProperties", .bool false),
            ("required", .arr [.str "name", .str "gherkin", .str "tags"]),
            ("properties", .obj [
              ("name", .obj [("type", .str "string")]),
              ("gherkin", .obj [("type", .str "string")]),
              ("tags", .obj [("type", .str "array"), ("items", .obj [("type", .str "string")])])
            ])
          ])
        ]),
        ("uiDataModel", .obj [
          ("type", .str "object"),
          ("additionalProperties", .bool false),
          ("required", .arr [.str "entities"]),
          ("properties", .obj [
            ("entities", .obj [
              ("type", .str "array"),
              ("items", .obj [
                ("type", .str "object"),
                ("additionalProperties", .bool false),
                ("required", .arr [.str "name", .str "fields"]),
                ("properties", .obj [
                  ("name", .obj [("type", .str "string")]),
                  ("fields", .obj [
                    ("type", .str "array"),
                    ("items", .obj [
                      ("type", .str "object"),
                      ("additionalProperties", .bool false),
                      ("required", .arr [.str "name", .str "type"]),
                      ("properties", .obj [
                        ("name", .obj [("type", .str "string")]),
                        ("type", .obj [("type", .str "string")]),
                        ("required", .obj [("type", .str "boolean")])
                      ])
                    ])
                  ])
                ])
              ])
            ])
          ])
        ]),
        ("validationReport", .obj [
          ("type", .str "object"),
          ("additionalProperties", .bool false),
          ("properties", .obj [
            ("coverage", .obj [
              ("type", .str "object"),
              ("additionalProperties", .bool false),
              ("properties", .obj [
                ("uiComponentsCoveredPct", .obj [("type", .str "number")]),
                ("fieldsWithTestsPct", .obj [("type", .str "number")])
              ])
            ]),
            ("conflicts", .obj [("type", .str "array"), ("items", .obj [("type", .str "string")])]),
            ("ambiguities", .obj [("type", .str "array"), ("items", .obj [("type", .str "string")])]),
            ("missing", .obj [("type", .str "array"), ("items", .obj [("type", .str "string")])]),
            ("notes", .obj [("type", .str "array"), ("items", .obj [("type", .str "string")])])
          ])
        ])
      ])
    ])
  ]

/-- Transcription of `schema()` from `src/unnamed/part_001` (lines 3-172),
the fully strict variant: closed objects and all documented optional
fields present (`trace` with `ui_nodes`/`entities`, `examples`,
`selectors`, `constraints`, `enum`, `relations`, `jsonSchemas`,
`sqlDDL`, `coverage` percentages). -/
def schemaPart001 : JValue :=
  .obj [
    ("name", .str "RequirementsBundle"),
    ("strict", .bool true),
    ("schema", .obj [
      ("type", .str "object"),
      ("additionalProperties", .bool false),
      ("properties", .obj [
        ("userStories", .obj [
          ("type", .str "array"),
          ("items", .obj [
            ("type", .str "object"),
            ("additionalProperties", .bool false),
            ("required", .arr [.str "id", .str "as_a", .str "i_want", .str "so_that", .str "acceptance_criteria"]),
            ("properties", .obj [
              ("id", .obj [("type", .str "string")]),
              ("as_a", .obj [("type", .str "string")]),
              ("i_want", .obj [("type", .str "string")]),
              ("so_that", .obj [("type", .str "string")]),
              ("acceptance_criteria", .obj [("type", .str "array"), ("items", .obj [("type", .str "string")])]),
              ("trace", .obj [
                ("type", .str "object"),
                ("additionalProperties", .bool false),
                ("properties", .obj [
                  ("ui_nodes", .obj [("type", .str "array"), ("items", .obj [("type", .str "string")])]),
                  ("entities", .obj [("type", .str "array"), ("items", .obj [("type", .str "string")])])
                ])
              ])
            ])
          ])
        ]),
        ("declarativeStories", .obj [
          ("type", .str "array"),
          ("items", .obj [
            ("type", .str "object"),
            ("additionalProperties", .bool false),
            ("required", .arr [.str "title", .str "scenarios"]),
            ("properties", .obj [
              ("title", .obj [("type", .str "string")]),
              ("scenarios", .obj [
                ("type", .str "array"),
                ("items", .obj [
                  ("type", .str "object"),
                  ("additionalProperties", .bool false),
                  ("required", .arr [.str "given", .str "when", .str "then"]),
                  ("properties", .obj [
                    ("given", .obj [("type", .str "string")]),
                    ("when", .obj [("type", .str "string")]),
                    ("then", .obj [("type", .str "string")]),
                    ("examples", .obj [
                      ("type", .str "array"),
                      ("items", .obj [
                        ("type", .str "object"),
                        ("additionalProperties", .bool false),
                        ("properties", .obj [])
                      ])
                    ])
                  ])
                ])
              ])
            ])
          ])
        ]),
        ("imperativeTests", .obj [
          ("type", .str "array"),
          ("items", .obj [
            ("type", .str "object"),
            ("additionalProperties", .bool false),
            ("required", .arr [.str "name", .str "gherkin", .str "tags"]),
            ("properties", .obj [
              ("name", .obj [("type", .str "string")]),
              ("tags", .obj [("type", .str "array"), ("items", .obj [("type", .str "string")])]),
              ("gherkin", .obj [("type", .str "string")]),
              ("selectors", .obj [
                ("type", .str "object"),
                ("additionalProperties", .bool false),
                ("properties", .obj [])
              ])
            ])
          ])
        ]),
        ("uiDataModel", .obj [
          ("type", .str "object"),
          ("additionalProperties", .bool false),
          ("properties", .obj [
            ("entities", .obj [
              ("type", .str "array"),
              ("items", .obj [
                ("type", .str "object"),
                ("additionalProperties", .bool false),
                ("required", .arr [.str "name", .str "fields"]),
                ("properties", .obj [
                  ("name", .obj [("type", .str "string")]),
                  ("fields", .obj [
                    ("type", .str "array"),
                    ("items", .obj [
                      ("type", .str "object"),
                      ("additionalProperties", .bool false),
                      ("required", .arr [.str "name", .str "type"]),
                      ("properties", .obj [
                        ("name", .obj [("type", .str "string")]),
                        ("type", .obj [("type", .str "string")]),
                        ("required", .obj [("type", .str "boolean")]),
                        ("constraints", .obj [
                          ("type", .str "object"),
                          ("additionalProperties", .bool false),
                          ("properties", .obj [
                            ("minLength", .obj [("type", .str "number")]),
                            ("maxLength", .obj [("type", .str "number")]),
                            ("pattern", .obj [("type", .str "string")]),
                            ("minimum", .obj [("type", .str "number")]),
                            ("maximum", .obj [("type", .str "number")])
                          ])
                        ]),
                        ("enum", .obj [("type", .str "array"), ("items", .obj [("type", .str "string")])])
                      ])
                    ])
                  ]),
                  ("relations", .obj [
                    ("type", .str "array"),
                    ("items", .obj [
                      ("type", .str "object"),
                      ("additionalProperties", .bool false),
                      ("properties", .obj [
                        ("type", .obj [("type", .str "string")]),
                        ("target", .obj [("type", .str "string")]),
                        ("on", .obj [("type", .str "string")])
                      ])
                    ])
                  ])
                ])
              ])
            ]),
            ("jsonSchemas", .obj [
              ("type", .str "object"),
              ("additionalProperties", .bool false),
              ("properties", .obj [])
            ]),
            ("sqlDDL", .obj [("type", .str "string")])
          ])
        ]),
        ("validationReport", .obj [
          ("type", .str "object"),
          ("additionalProperties", .bool false),
          ("properties", .obj [
            ("coverage", .obj [
              ("type", .str "object"),
              ("additionalProperties", .bool false),
              ("properties", .obj [
                ("uiComponentsCoveredPct", .obj [("type", .str "number")]),
                ("fieldsWithTestsPct", .obj [("type", .str "number")])
              ])
            ]),
            ("conflicts", .obj [("type", .str "array"), ("items", .obj [("type", .str "string")])]),
            ("ambiguities", .obj [("type", .str "array"), ("items", .obj [("type", .str "string")])]),
            ("missing", .obj [("type", .str "array"), ("items", .obj [("type", .str "string")])]),
            ("notes", .obj [("type", .str "array"), ("items", .obj [("type", .str "string")])])
          ])
        ])
      ]),
      ("required", .arr [
        .str "userStories",
        .str "declarativeStories",
        .str "imperativeTests",
        .str "uiDataModel",
        .str "validationReport"
      ])
    ])
  ]

/-! ## The handler (`src/api/generate.js`, lines 101-177) -/

/-- The destructured JSON request body
`const { figmaUrl, brief, rules, model, detail, imageDataUrl } = await req.json()`.
Each field is `none` when the key is absent (JavaScript `undefined`);
the spec documents all six keys as strings. -/
structure RequestBody where
  figmaUrl : Option String
  brief : Option String
  rules : Option String
  model : Option String
  detail : Option String
  imageDataUrl : Option String

/-- JavaScript `x || d` for a string-or-undefined `x`: the default is
taken when the value is absent or is the empty string (the only falsy
string). -/
def jsOr (x : Option String) (d : String) : String :=
  match x with
  | none => d
  | some s => if s = "" then d else s

/-- JavaScript truthiness of a string-or-undefined value, as used by
`if (imageDataUrl) ...`. -/
def jsTruthy (x : Option String) : Bool :=
  match x with
  | none => false
  | some s => s != ""

/-- One element of a user message's `content` array: a text part or an
`{ type: "image_url", image_url: { url } }` part. -/
inductive ContentPart where
  | text (text : String)
  | image_url (url : String)

/-- A message's `content`: a plain string (system message) or an array of
parts (user message). -/
inductive MessageContent where
  | str (s : String)
  | parts (ps : List ContentPart)

/-- One chat message `{ role, content }`. -/
structure Message where
  role : String
  content : MessageContent

/-- The system message of `messages` (lines 109-122), with its exact
prompt text. -/
def systemMessage : Message :=
  { role := "system",
    content := .str "You are a Product Requirements generator.\nReturn STRICT JSON ONLY (no prose) that conforms to the provided JSON Schema.\nInputs you may use: Figma URL, uploaded image, product brief, and validation rules.\nGoals:\n1) User Stories with SMART acceptance criteria (success, error, empty, permission).\n2) Declarative stories (rule-focused Gherkin; scenario outlines with examples where useful).\n3) Imperative test cases (Given/When/Then; selectors/testIds where possible).\n4) UI Data Model (entities, fields, constraints, relations, JSON Schemas, optional SQL DDL).\n5) Validation Report (coverage, conflicts, ambiguities, missing).\nHonor the rules strictly. If a detail is genuinely unknown, use \"TBD\" and flag it in validationReport." }

/-- The interpolated text part of the user message (lines 126-134):
the template literal with `figmaUrl || 'N/A'`, `brief || 'N/A'`,
`detail || 'standard'` and `rules || ''` substituted. -/
def userText (b : RequestBody) : String :=
  "FIGMA: " ++ jsOr b.figmaUrl "N/A" ++
  "\nBRIEF: " ++ jsOr b.brief "N/A" ++
  "\nDETAIL: " ++ jsOr b.detail "standard" ++
  "\nRULES (YAML or text):\n" ++ jsOr b.rules "" ++
  "\n\nPlease infer intents from UI labels and flows if present. Produce comprehensive but concise artifacts.\nLink stories/tests/model via trace where obvious."

/-- The `messages` array after construction (lines 108-137) and the
conditional image append (lines 140-145): system message first, then the
user message, whose content gains an `image_url` part exactly when
`imageDataUrl` is truthy. -/
def buildMessages (b : RequestBody) : List Message :=
  [ systemMessage,
    { role := "user",
      content := .parts
        ([ContentPart.text (userText b)] ++
          (match b.imageDataUrl with
           | none => []
           | some s => if s = "" then [] else [ContentPart.image_url s])) } ]

/-- The `response_format` object `{ type: "json_schema", json_schema: schema() }`. -/
structure ResponseFormat where
  type : String
  json_schema : JValue

/-- The outbound request body `body` (lines 150-155): exactly the three
fields `model`, `messages`, `response_format`. -/
structure OutboundBody where
  model : String
  messages : List Message
  response_format : ResponseFormat

/-- One outbound `fetch` call (lines 157-164): URL, the two headers, and
the JSON body. -/
structure OutboundRequest where
  url : String
  authorization : String
  contentType : String
  body : OutboundBody

/-- The upstream `fetch` response as the handler observes it: `resp.ok`,
the outcome of `resp.text()` (used on the non-ok path) and of
`resp.json()` (used on the ok path).  `Except.error e` models the
promise rejecting with message `e`. -/
structure UpstreamResponse where
  ok : Bool
  textBody : Except String String
  jsonBody : Except String JValue

/-- The inbound request as the handler observes it: `req.method` and the
outcome of `await req.json()`. -/
structure Request where
  method : String
  jsonBody : Except String RequestBody

/-- A `Response` as the handler constructs one: status, body text, and
the explicit `Content-Type` header when one is set. -/
structure Response where
  status : Nat
  body : String
  contentType : Option String

/-- Object field access `v.k` on a parsed JSON value. -/
def getField (v : JValue) (k : String) : Option JValue :=
  match v with
  | .obj kvs => kvs.lookup k
  | _ => none

/-- Array index access `v[i]` on a parsed JSON value. -/
def getIndex (v : JValue) (i : Nat) : Option JValue :=
  match v with
  | .arr xs => xs.get? i
  | _ => none

/-- The optional chain `data.choices?.[0]?.message?.content` (line 172),
as a string when it reaches a string; a missing step, or a non-string
`content`, is modelled as absence. -/
def messageContent (data : JValue) : Option String :=
  match (((getField data "choices").bind fun c => getIndex c 0).bind fun c =>
      getField c "message").bind fun m => getField m "content" with
  | some (.str s) => some s
  | _ => none

/-- The chat-completions endpoint URL (line 157). -/
def chatCompletionsUrl : String := "https://api.openai.com/v1/chat/completions"

/-- The handler (lines 101-177).  `apiKey` is `process.env.OPENAI_API_KEY`;
`fetchResult` is the outcome of the single outbound `fetch`.  The result
pairs the `Response` returned to the caller with the list of outbound
calls performed, in order.  The top-level `try/catch` appears as the
`Except.error` branches, each producing the `Server error: ...` response. -/
def handler (apiKey : String) (req : Request)
    (fetchResult : Except String UpstreamResponse) :
    Response × List OutboundRequest :=
  if req.method ≠ "POST" then
    ({ status := 405, body := "Method Not Allowed", contentType := none }, [])
  else
    match req.jsonBody with
    | .error e => ({ status := 500, body := "Server error: " ++ e, contentType := none }, [])
    | .ok b =>
      let messages := buildMessages b
      let body : OutboundBody :=
        { model := jsOr b.model "gpt-5",
          messages := messages,
          response_format := { type := "json_schema", json_schema := schema } }
      let call : OutboundRequest :=
        { url := chatCompletionsUrl,
          authorization := "Bearer " ++ apiKey,
          contentType := "application/json",
          body := body }
      match fetchResult with
      | .error e => ({ status := 500, body := "Server error: " ++ e, contentType := none }, [call])
      | .ok resp =>
        if !resp.ok then
          match resp.textBody with
          | .error e => ({ status := 500, body := "Server error: " ++ e, contentType := none }, [call])
          | .ok text => ({ status := 500, body := "OpenAI error: " ++ text, contentType := none }, [call])
        else
          match resp.jsonBody with
          | .error e => ({ status := 500, body := "Server error: " ++ e, contentType := none }, [call])
          | .ok data =>
            let content := jsOr (messageContent data) "\x7b\x7d"
            ({ status := 200, body := content, contentType := some "application/json" }, [call])

/-! ## Structural view of a JSON Schema, for comparing the code's
`schema()` against the structure documented in spec section 3
(field names, nesting, required lists). -/

/-- The structural skeleton of a JSON-Schema node: a scalar type, an
array with its item skeleton, an object with no `properties` constraint,
or an object with named fields, each carrying whether it is listed in
the node's `required` array. -/
inductive Shape where
  | atom (ty : String)
  | arr (item : Shape)
  | anyObj
  | obj (fields : List (String × Bool × Shape))

/-- The string entries of a schema node's `required` array. -/
def requiredNames (kvs : List (String × JValue)) : List String :=
  match kvs.lookup "required" with
  | some (.arr xs) => xs.filterMap fun v => match v with | .str s => some s | _ => none
  | _ => []

/-- Extract the `Shape` of a JSON-Schema node, with recursion fuel
(32 is far beyond the nesting depth of any schema in the repository). -/
def shapeOfF : Nat → JValue → Shape
  | 0, _ => .atom "fuel"
  | n + 1, v =>
    match v with
    | .obj kvs =>
      match kvs.lookup "type" with
      | some (.str "object") =>
        match kvs.lookup "properties" with
        | some (.obj props) =>
          .obj (props.map fun p => (p.1, (requiredNames kvs).contains p.1, shapeOfF n p.2))
        | _ => .anyObj
      | some (.str "array") =>
        match kvs.lookup "items" with
        | some it => .arr (shapeOfF n it)
        | none => .arr (.atom "missing")
      | some (.str t) => .atom t
      | _ => .atom "untyped"
    | _ => .atom "nonschema"

/-- The `Shape` of a JSON-Schema node. -/
def shapeOf (v : JValue) : Shape := shapeOfF 32 v

/-- The `Shape` of the inner `schema` object of a
`{ name, strict, schema }` bundle as passed to `json_schema`. -/
def bundleShape (v : JValue) : Shape :=
  match getField v "schema" with
  | some s => shapeOf s
  | none => .atom "missing"

/-- The structure documented in spec section 3, as far as the spec
fixes it: `any` where the spec leaves a field's shape open, `strS` for
"string", `seqOf` for "sequence of", and `objS` for an object whose
field names are enumerated, with `true` on a field not marked optional
by `?` and `false` on a `?`-marked one. -/
inductive SpecShape where
  | any
  | strS
  | seqOf (item : SpecShape)
  | objS (fields : List (String × Bool × SpecShape))

/-- Does a schema `Shape` conform to a documented `SpecShape`?
`checkReq` selects whether the required marks must agree as well; with
`checkReq = false` only field names and nesting are compared.  An object
conforms to `objS fields` only when its field names are exactly the
documented ones. -/
def conformsF : Nat → Bool → Shape → SpecShape → Bool
  | 0, _, _, _ => false
  | n + 1, checkReq, sh, sp =>
    match sp with
    | .any => true
    | .strS => match sh with | .atom t => t == "string" | _ => false
    | .seqOf t => match sh with | .arr it => conformsF n checkReq it t | _ => false
    | .objS fs =>
      match sh with
      | .obj gs =>
        gs.all (fun g => fs.any fun f => f.1 == g.1) &&
        fs.all fun f =>
          match gs.find? (fun g => g.1 == f.1) with
          | some g => (!checkReq || g.2.1 == f.2.1) && conformsF n checkReq g.2.2 f.2.2
          | none => false
      | _ => false

/-- Conformance on field names and nesting only. -/
def namesConforms (sh : Shape) (sp : SpecShape) : Bool := conformsF 32 false sh sp

/-- Conformance on field names, nesting and required marks. -/
def fullConforms (sh : Shape) (sp : SpecShape) : Bool := conformsF 32 true sh sp

/-- The top-level field names of an object `Shape` with their required
marks. -/
def topFields (sh : Shape) : List (String × Bool) :=
  match sh with
  | .obj fs => fs.map fun f => (f.1, f.2.1)
  | _ => []

/-- The sub-`Shape` of a named field of an object `Shape`. -/
def fieldShape (sh : Shape) (k : String) : Option Shape :=
  match sh with
  | .obj fs => (fs.find? fun f => f.1 == k).map fun f => f.2.2
  | _ => none

/-- The item sub-`Shape` of an array `Shape`. -/
def itemShape (sh : Shape) : Option Shape :=
  match sh with
  | .arr it => some it
  | _ => none

/-- The output envelope documented in spec section 3, transcribed
bullet for bullet: five top-level fields, none marked optional; nested
objects with the documented field names; `?`-marked fields carry
`false`; "sequence of string" is `seqOf strS`; fields whose shape the
spec does not fix are `any`. -/
def docSchemaShape : SpecShape :=
  .objS [
    ("userStories", true, .seqOf (.objS [
      ("id", true, .any),
      ("as_a", true, .any),
      ("i_want", true, .any),
      ("so_that", true, .any),
      ("acceptance_criteria", true, .seqOf .strS),
      ("trace", false, .objS [("ui_nodes", true, .any), ("entities", true, .any)])])),
    ("declarativeStories", true, .seqOf (.objS [
      ("title", true, .any),
      ("scenarios", true, .seqOf (.objS [
        ("given", true, .any), ("when", true, .any), ("then", true, .any),
        ("examples", false, .any)]))])),
    ("imperativeTests", true, .seqOf (.objS [
      ("name", true, .any),
      ("gherkin", true, .any),
      ("tags", true, .seqOf .strS),
      ("selectors", false, .any)])),
    ("uiDataModel", true, .objS [
      ("entities", true, .seqOf (.objS [
        ("name", true, .any),
        ("fields", true, .seqOf (.objS [
          ("name", true, .any), ("type", true, .any),
          ("required", false, .any), ("constraints", false, .any), ("enum", false, .any)])),
        ("relations", false, .any)])),
      ("jsonSchemas", false, .any),
      ("sqlDDL", false, .any)]),
    ("validationReport", true, .objS [
      ("coverage", false, .objS [
        ("uiComponentsCoveredPct", true, .any), ("fieldsWithTestsPct", true, .any)]),
      ("conflicts", false, .any),
      ("ambiguities", false, .any),
      ("missing", false, .any),
      ("notes", false, .seqOf .strS)])]

/-- The documented top level: the five fields, all required. -/
def docTopFields : List (String × Bool) :=
  [("userStories", true), ("declarativeStories", true), ("imperativeTests", true),
   ("uiDataModel", true), ("validationReport", true)]

/-- The `image_url` parts of the user message (index 1) of a messages
array. -/
def userImageParts (msgs : List Message) : List ContentPart :=
  match msgs.get? 1 with
  | some m =>
    match m.content with
    | .parts ps => ps.filter fun p => match p with | .image_url _ => true | _ => false
    | .str _ => []
  | none => []

/-- The destructured result of a POST whose JSON body is the empty
object: all six keys absent. -/
def emptyBody : RequestBody :=
  { figmaUrl := none, brief := none, rules := none, model := none,
    detail := none, imageDataUrl := none }

/-! ## Claims -/

/-- C1, counterexample: the `json_schema` constraint of `src/api/generate.js`
does not match the schema documented in spec section 3 exactly, not even
on field names and nesting alone: its `userStories` items' `trace` and
its `validationReport.coverage` are unconstrained objects with no
`properties`, so they carry neither `ui_nodes`/`entities` nor
`uiComponentsCoveredPct`/`fieldsWithTestsPct`. -/
theorem c1_counterexample :
    fullConforms (bundleShape schema) docSchemaShape = false ∧
    namesConforms (bundleShape schema) docSchemaShape = false ∧
    ((fieldShape (bundleShape schema) "userStories").bind itemShape).bind
      (fun sh => fieldShape sh "trace") = some Shape.anyObj ∧
    (fieldShape (bundleShape schema) "validationReport").bind
      (fun sh => fieldShape sh "coverage") = some Shape.anyObj :=
  ⟨rfl, rfl, rfl, rfl⟩

/-- C1, amended: in every variant the `json_schema` sent upstream has
exactly the five documented top-level fields with all five required;
the documented nested field names and nesting (including `trace` with
`ui_nodes`/`entities` and `coverage` with the two percentage fields)
are matched exactly by the fully strict variant (`src/unnamed/part_001`)
only: `src/api/generate.js` leaves `trace` and `validationReport.coverage`
unconstrained, `src/unnamed/part_000` omits `trace` and the other
documented optional fields, and even `part_001` does not reproduce the
required marks spec section 3's `?`-notation implies for nested fields. -/
theorem c1_schema_matches_doc :
    topFields (bundleShape schema) = docTopFields ∧
    topFields (bundleShape schemaPart000) = docTopFields ∧
    topFields (bundleShape schemaPart001) = docTopFields ∧
    namesConforms (bundleShape schemaPart001) docSchemaShape = true ∧
    namesConforms (bundleShape schemaPart000) docSchemaShape = false ∧
    ((fieldShape (bundleShape schemaPart000) "userStories").bind itemShape).bind
      (fun sh => fieldShape sh "trace") = none ∧
    fullConforms (bundleShape schemaPart001) docSchemaShape = false :=
  ⟨rfl, rfl, rfl, rfl, rfl, rfl, rfl⟩

/-- C2: for every inbound request whose method is not POST, the handler
returns status 405 and performs no outbound call. -/
theorem c2_non_post_rejected (apiKey : String) (req : Request)
    (fetchResult : Except String UpstreamResponse) (h : req.method ≠ "POST") :
    (handler apiKey req fetchResult).1.status = 405 ∧
    (handler apiKey req fetchResult).2 = [] := by
  simp [handler, h]

/-- C2 witness: a GET request is rejected with 405 and no outbound call. -/
theorem c2_witness :
    ("GET" : String) ≠ "POST" ∧
    ((handler "k" { method := "GET", jsonBody := Except.error "unread" }
        (Except.error "net")).1.status = 405 ∧
      (handler "k" { method := "GET", jsonBody := Except.error "unread" }
        (Except.error "net")).2 = []) :=
  ⟨by decide, c2_non_post_rejected "k" _ _ (by decide)⟩

/-- A parsed upstream response body whose first (and only) choice has
the given string as its message content. -/
def choicesData (content : String) : JValue :=
  .obj [("choices", .arr [.obj [("message", .obj [("content", .str content)])]])]

/-- C3, counterexample: when the first choice's message content is
present but is the empty string, the handler's 200 body is the
placeholder string rather than the (empty) content, because line 172
uses JavaScript `||` (truthiness), not an absence check. -/
theorem c3_counterexample :
    (handler "k" { method := "POST", jsonBody := Except.ok emptyBody }
      (Except.ok { ok := true, textBody := Except.ok "", jsonBody := Except.ok (choicesData "") })).1.body
      = "\x7b\x7d" ∧
    messageContent (choicesData "") = some "" ∧
    ("\x7b\x7d" : String) ≠ "" :=
  ⟨rfl, rfl, by decide⟩

/-- C3, amended: when the outbound call succeeds (upstream `ok` with a
parsed JSON body), the handler returns 200 with Content-Type
application/json and a body equal to the first choice's message content
when that content is a non-empty string, and the placeholder string
otherwise (content absent or empty). -/
theorem c3_success_relays_content (apiKey : String) (b : RequestBody)
    (tb : Except String String) (data : JValue) :
    (handler apiKey { method := "POST", jsonBody := Except.ok b }
        (Except.ok { ok := true, textBody := tb, jsonBody := Except.ok data })).1.status
      = 200 ∧
    (handler apiKey { method := "POST", jsonBody := Except.ok b }
        (Except.ok { ok := true, textBody := tb, jsonBody := Except.ok data })).1.contentType
      = some "application/json" ∧
    (∀ s, messageContent data = some s → s ≠ "" →
      (handler apiKey { method := "POST", jsonBody := Except.ok b }
        (Except.ok { ok := true, textBody := tb, jsonBody := Except.ok data })).1.body = s) ∧
    (messageContent data = none →
      (handler apiKey { method := "POST", jsonBody := Except.ok b }
        (Except.ok { ok := true, textBody := tb, jsonBody := Except.ok data })).1.body
        = "\x7b\x7d") ∧
    (messageContent data = some "" →
      (handler apiKey { method := "POST", jsonBody := Except.ok b }
        (Except.ok { ok := true, textBody := tb, jsonBody := Except.ok data })).1.body
        = "\x7b\x7d") := by
  refine ⟨rfl, rfl, fun s hs hne => ?_, fun hn => ?_, fun he => ?_⟩
  · show jsOr (messageContent data) "\x7b\x7d" = s
    rw [hs]
    simp [jsOr, hne]
  · show jsOr (messageContent data) "\x7b\x7d" = "\x7b\x7d"
    rw [hn]
    rfl
  · show jsOr (messageContent data) "\x7b\x7d" = "\x7b\x7d"
    rw [he]
    simp [jsOr]

/-- C3 witness: a successful upstream response with non-empty content
"done" is relayed as the 200 body. -/
theorem c3_witness :
    (handler "k" { method := "POST", jsonBody := Except.ok emptyBody }
      (Except.ok { ok := true, textBody := Except.ok "", jsonBody := Except.ok (choicesData "done") })).1.body
      = "done" :=
  (c3_success_relays_content "k" emptyBody (Except.ok "") (choicesData "done")).2.2.1
    "done" rfl (by decide)

/-- C4: when the outbound call returns a non-success status (`ok` false)
and its error text reads successfully, the handler returns 500 with the
upstream text embedded verbatim after the fixed prefix. -/
theorem c4_upstream_error_relayed (apiKey : String) (b : RequestBody)
    (jb : Except String JValue) (text : String) :
    (handler apiKey { method := "POST", jsonBody := Except.ok b }
        (Except.ok { ok := false, textBody := Except.ok text, jsonBody := jb })).1.status
      = 500 ∧
    (handler apiKey { method := "POST", jsonBody := Except.ok b }
        (Except.ok { ok := false, textBody := Except.ok text, jsonBody := jb })).1.body
      = "OpenAI error: " ++ text :=
  ⟨rfl, rfl⟩

/-- C5: for a POST whose JSON body is the empty object, the neutral
defaults are interpolated into the outbound prompt ("N/A" for the Figma
URL and brief, "standard" for detail, empty rules) and the outbound
call is still attempted, whatever the outcome of the fetch: the trace
holds exactly one call, carrying the two constructed messages, the
default model, and the schema constraint. -/
theorem c5_empty_body_defaults (apiKey : String)
    (fetchResult : Except String UpstreamResponse) :
    (handler apiKey { method := "POST", jsonBody := Except.ok emptyBody }
      fetchResult).2 =
    [{ url := chatCompletionsUrl,
       authorization := "Bearer " ++ apiKey,
       contentType := "application/json",
       body := { model := "gpt-5",
                 messages := [systemMessage,
                   { role := "user",
                     content := .parts [ContentPart.text
                       "FIGMA: N/A\nBRIEF: N/A\nDETAIL: standard\nRULES (YAML or text):\n\n\nPlease infer intents from UI labels and flows if present. Produce comprehensive but concise artifacts.\nLink stories/tests/model via trace where obvious."] }],
                 response_format := { type := "json_schema", json_schema := schema } } }] := by
  cases fetchResult with
  | error e => rfl
  | ok r =>
    rcases r with ⟨ok, tb, jb⟩
    cases ok
    · cases tb <;> rfl
    · cases jb <;> rfl

/-- C6, counterexample: a POST whose body carries the key `imageDataUrl`
with the empty string produces an outbound user message with no image
content part, although the key is present: line 140 tests truthiness,
not key presence. -/
theorem c6_counterexample :
    ((handler "k" { method := "POST", jsonBody := Except.ok { emptyBody with imageDataUrl := some "" } }
        (Except.error "net")).2.map
      fun c => userImageParts c.body.messages) = [[]] ∧
    (some "" : Option String) ≠ none :=
  ⟨rfl, by simp⟩

/-- C6, amended: for every POST invocation, the outbound user message
contains an additional `image_url` part carrying the supplied data URL
exactly when `imageDataUrl` is present with a non-empty (truthy) value,
and contains no such part when the key is absent or its value empty. -/
theorem c6_image_part_iff_truthy (apiKey : String) (b : RequestBody)
    (fetchResult : Except String UpstreamResponse) :
    ((handler apiKey { method := "POST", jsonBody := Except.ok b } fetchResult).2.map
        fun c => c.body.messages) = [buildMessages b] ∧
    (userImageParts (buildMessages b)).isEmpty = !jsTruthy b.imageDataUrl ∧
    (∀ s, b.imageDataUrl = some s → s ≠ "" →
      userImageParts (buildMessages b) = [ContentPart.image_url s]) := by
  refine ⟨?_, ?_, ?_⟩
  · cases fetchResult with
    | error e => rfl
    | ok r =>
      rcases r with ⟨ok, tb, jb⟩
      cases ok
      · cases tb <;> rfl
      · cases jb <;> rfl
  · cases h : b.imageDataUrl with
    | none => simp [userImageParts, buildMessages, jsTruthy, h]
    | some s =>
      by_cases hs : s = ""
      · subst hs
        simp [userImageParts, buildMessages, jsTruthy, h]
      · simp [userImageParts, buildMessages, jsTruthy, h, hs]
  · intro s hs hne
    simp [userImageParts, buildMessages, hs, hne]

/-- C6 witness: a request carrying a non-empty data URL gets exactly one
image part, holding that URL. -/
theorem c6_witness :
    userImageParts (buildMessages { emptyBody with imageDataUrl := some "data:image/png;base64,AAAA" })
      = [ContentPart.image_url "data:image/png;base64,AAAA"] :=
  (c6_image_part_iff_truthy "k" { emptyBody with imageDataUrl := some "data:image/png;base64,AAAA" }
    (Except.error "net")).2.2 "data:image/png;base64,AAAA" rfl (by decide)

/-- C7: whenever the handler's own processing throws — body parsing,
the fetch itself, or reading the upstream response on either path — the
exception is caught by the top-level try/catch and becomes a 500
response describing the failure.  (The model `handler` is a total
function, so no exception escapes it.) -/
theorem c7_exceptions_caught (apiKey : String)
    (jsonBody : Except String RequestBody)
    (fetchResult : Except String UpstreamResponse) (e : String)
    (h : jsonBody = Except.error e ∨
      ∃ b, jsonBody = Except.ok b ∧
        (fetchResult = Except.error e ∨
         (∃ jb, fetchResult = Except.ok { ok := false, textBody := Except.error e, jsonBody := jb }) ∨
         (∃ tb, fetchResult = Except.ok { ok := true, textBody := tb, jsonBody := Except.error e }))) :
    (handler apiKey { method := "POST", jsonBody := jsonBody } fetchResult).1 =
      { status := 500, body := "Server error: " ++ e, contentType := none } := by
  rcases h with h | ⟨b, hb, h⟩
  · subst h
    rfl
  · subst hb
    rcases h with h | ⟨jb, h⟩ | ⟨tb, h⟩ <;> subst h <;> rfl

/-- C7 witness: a request whose JSON body fails to parse yields the
500 "Server error" response. -/
theorem c7_witness :
    (handler "k" { method := "POST", jsonBody := Except.error "bad json" }
      (Except.error "net")).1 =
      { status := 500, body := "Server error: " ++ "bad json", contentType := none } :=
  c7_exceptions_caught "k" (Except.error "bad json") (Except.error "net") "bad json"
    (Or.inl rfl)

/-- C8: every POST invocation that reaches the outbound call sends a
body consisting of exactly the three fields of `OutboundBody`: `model`
(the caller's model when given and non-empty, the default "gpt-5" when
absent), `messages` (two messages, system first), and `response_format`
of the form type "json_schema" with the constructed schema. -/
theorem c8_outbound_body_shape (apiKey : String) (b : RequestBody)
    (fetchResult : Except String UpstreamResponse) :
    ∃ call, (handler apiKey { method := "POST", jsonBody := Except.ok b } fetchResult).2 = [call] ∧
      (b.model = none → call.body.model = "gpt-5") ∧
      (∀ m, b.model = some m → m ≠ "" → call.body.model = m) ∧
      call.body.messages.length = 2 ∧
      call.body.messages.head?.map Message.role = some "system" ∧
      call.body.response_format = { type := "json_schema", json_schema := schema } := by
  refine ⟨{ url := chatCompletionsUrl,
            authorization := "Bearer " ++ apiKey,
            contentType := "application/json",
            body := { model := jsOr b.model "gpt-5",
                      messages := buildMessages b,
                      response_format := { type := "json_schema", json_schema := schema } } },
    ?_, fun hn => ?_, fun m hm hne => ?_, rfl, rfl, rfl⟩
  · cases fetchResult with
    | error e => rfl
    | ok r =>
      rcases r with ⟨ok, tb, jb⟩
      cases ok
      · cases tb <;> rfl
      · cases jb <;> rfl
  · show jsOr b.model "gpt-5" = "gpt-5"
    rw [hn]
    rfl
  · show jsOr b.model "gpt-5" = m
    rw [hm]
    simp [jsOr, hne]

/-- C8 witness: with model "gpt-4o" requested, the single outbound call
carries model "gpt-4o". -/
theorem c8_witness :
    ∃ call, (handler "k" { method := "POST", jsonBody := Except.ok { emptyBody with model := some "gpt-4o" } }
        (Except.error "net")).2 = [call] ∧ call.body.model = "gpt-4o" := by
  obtain ⟨call, h1, h2, h3, h4⟩ :=
    c8_outbound_body_shape "k" { emptyBody with model := some "gpt-4o" } (Except.error "net")
  exact ⟨call, h1, h3 "gpt-4o" rfl (by decide)⟩

/-- C9: for every invocation, at most one outbound call is performed;
none is ever retried. -/
theorem c9_at_most_one_outbound (apiKey : String) (req : Request)
    (fetchResult : Except String UpstreamResponse) :
    (handler apiKey req fetchResult).2.length ≤ 1 := by
  rcases req with ⟨m, jb⟩
  by_cases h : m = "POST"
  · subst h
    cases jb with
    | error e => exact Nat.zero_le 1
    | ok b =>
      cases fetchResult with
      | error e => exact Nat.le_refl 1
      | ok r =>
        rcases r with ⟨ok, tb, jb2⟩
        cases ok
        · cases tb <;> exact Nat.le_refl 1
        · cases jb2 <;> exact Nat.le_refl 1
  · simp [handler, h]

/-- The destructured result of a POST whose JSON body carries all six
keys with the empty string as value. -/
def allEmptyStringsBody : RequestBody :=
  { figmaUrl := some "", brief := some "", rules := some "", model := some "",
    detail := some "", imageDataUrl := some "" }

/-- C10: default substitution follows JavaScript truthiness, not key
absence: a POST body whose six keys are all present but empty behaves
exactly like one with all keys absent — "N/A" for the Figma URL and
brief, "standard" for detail, model "gpt-5", and no image part — down
to the full handler result. -/
theorem c10_truthiness_defaults (apiKey : String)
    (fetchResult : Except String UpstreamResponse) :
    handler apiKey { method := "POST", jsonBody := Except.ok allEmptyStringsBody } fetchResult =
      handler apiKey { method := "POST", jsonBody := Except.ok emptyBody } fetchResult ∧
    ((handler apiKey { method := "POST", jsonBody := Except.ok allEmptyStringsBody } fetchResult).2.map
      fun c => c.body.model) = ["gpt-5"] ∧
    ((handler apiKey { method := "POST", jsonBody := Except.ok allEmptyStringsBody } fetchResult).2.map
      fun c => userImageParts c.body.messages) = [[]] ∧
    userText allEmptyStringsBody =
      "FIGMA: N/A\nBRIEF: N/A\nDETAIL: standard\nRULES (YAML or text):\n\n\nPlease infer intents from UI labels and flows if present. Produce comprehensive but concise artifacts.\nLink stories/tests/model via trace where obvious." := by
  refine ⟨?_, ?_, ?_, rfl⟩ <;>
    (cases fetchResult with
     | error e => rfl
     | ok r =>
       rcases r with ⟨ok, tb, jb⟩
       cases ok
       · cases tb <;> rfl
       · cases jb <;> rfl)
